import Mathlib

/-!
Shallow embedding of `src/libs/nativedisplay/AChoreographer.cpp` (the
per-thread frame-callback scheduler `android::Choreographer`), together
with theorems settling the specification claims about it.

Modelling conventions:
* `nsecs_t` is embedded as `Int` (monotonic timestamps never overflow a
  signed 64-bit value in practice, and no arithmetic in the source wraps).
* Opaque C function pointers (`AChoreographer_frameCallback`,
  `AChoreographer_frameCallback64`, `AChoreographer_refreshRateCallback`)
  are embedded as `Option Nat` / `Nat` identifiers; `none` is `nullptr`.
* `void* data` pointers are embedded as `Nat` identifiers.
* `std::priority_queue<FrameCallback>` (with `operator<` flipped so the
  earliest due time is at the top) is linearised as a `List FrameCallback`
  kept sorted by due time ascending: `top()` is the head, `pop()` the
  tail, `push` a sorted insert.  The C++ heap leaves the order of equal
  keys unspecified; the sorted-list model resolves ties by placing a new
  element after existing equal keys, which is one of the permitted
  behaviours and is irrelevant to every claim (they only constrain the
  due-time order).
* Effects (invoking a client callback, `scheduleVsync()`,
  `Looper::sendMessage(Delayed)`, `toggleConfigEvents`) are returned as
  explicit event values instead of being performed.
* The mutex only serialises access in the source; the embedding is a
  sequential state-transition model, so it has no counterpart.
-/

/-- Embedding of `nsecs_t` from `utils/Timers.h`. -/
abbrev Nsecs := Int

/-- Source `struct FrameCallback` (AChoreographer.cpp, lines 39-50): the queued
unit of work.  `callback`/`callback64` are the two nullable handler
forms, `data` the opaque user pointer, `dueTime` the monotonic deadline. -/
structure FrameCallback where
  callback : Option Nat
  callback64 : Option Nat
  data : Nat
  dueTime : Nsecs
  deriving DecidableEq, Repr

/-- Source `struct RefreshRateCallback` (lines 52-55). -/
structure RefreshRateCallback where
  callback : Nat
  data : Nat
  deriving DecidableEq, Repr

/-- Ordering on queued callbacks by due time.  The source flips
`operator<` so that the `std::priority_queue` (a max-heap) yields the
callback due soonest at `top()`; the linearised queue is therefore
sorted by `dueTime` ascending. -/
abbrev DueLE (a b : FrameCallback) : Prop := a.dueTime ≤ b.dueTime

/-- The invariant of the linearised `mFrameCallbacks` priority queue:
entries are in non-decreasing due-time order, earliest at the head. -/
def QueueSorted (l : List FrameCallback) : Prop := List.Sorted DueLE l

instance (l : List FrameCallback) : Decidable (QueueSorted l) :=
  inferInstanceAs (Decidable (List.Pairwise DueLE l))

/-- Embedding of `mFrameCallbacks.push(callback)`: sorted insert into the linearised
priority queue (before the first strictly later entry). -/
def pqInsert (c : FrameCallback) : List FrameCallback → List FrameCallback
  | [] => [c]
  | x :: xs => if c.dueTime < x.dueTime then c :: x :: xs else x :: pqInsert c xs

/-- The message tags of `enum { MSG_SCHEDULE_CALLBACKS = 0, MSG_SCHEDULE_VSYNC = 1 }`. -/
def MSG_SCHEDULE_CALLBACKS : Nat := 0

/-- See `MSG_SCHEDULE_CALLBACKS`. -/
def MSG_SCHEDULE_VSYNC : Nat := 1

/-- The effect `postFrameCallbackDelayed` performs after pushing the
callback: a direct `scheduleVsync()` call, a `Looper::sendMessage`, or a
`Looper::sendMessageDelayed`. -/
inductive PostAction where
  | directVsync
  | sendMessage (what : Nat)
  | sendMessageDelayed (delay : Nsecs) (what : Nat)
  deriving DecidableEq, Repr

/-- Embedding of `Choreographer::postFrameCallbackDelayed` (lines 125-144).  `now` is
the `systemTime(SYSTEM_TIME_MONOTONIC)` reading taken at entry;
`callerThread`/`ownerThread` embed `std::this_thread::get_id()` and
`mThreadId`.  Returns the updated `mFrameCallbacks` queue and the effect
performed before returning. -/
def postFrameCallbackDelayed (cb cb64 : Option Nat) (data : Nat) (delay : Nsecs)
    (now : Nsecs) (callerThread ownerThread : Nat)
    (mFrameCallbacks : List FrameCallback) : List FrameCallback × PostAction :=
  let callback : FrameCallback := ⟨cb, cb64, data, now + delay⟩
  let q := pqInsert callback mFrameCallbacks
  if callback.dueTime ≤ now then
    if callerThread ≠ ownerThread then
      (q, .sendMessage MSG_SCHEDULE_VSYNC)
    else
      (q, .directVsync)
  else
    (q, .sendMessageDelayed delay MSG_SCHEDULE_CALLBACKS)

/-- Outcome of `Choreographer::scheduleCallbacks` (lines 167-175).
`emptyQueueTop` marks the execution that evaluates
`mFrameCallbacks.top()` on an empty `std::priority_queue`, which is
undefined behaviour in C++ (the EmptyQueue precondition violation). -/
inductive ScheduleOutcome where
  | emptyQueueTop
  | vsyncScheduled
  | noAction
  deriving DecidableEq, Repr

/-- Embedding of `Choreographer::scheduleCallbacks` (lines 167-175): reads `now`,
then evaluates `mFrameCallbacks.top().dueTime <= now` with no emptiness
check, calling `scheduleVsync()` when the earliest callback is due. -/
def scheduleCallbacks (now : Nsecs) (mFrameCallbacks : List FrameCallback) :
    ScheduleOutcome :=
  match mFrameCallbacks with
  | [] => .emptyQueueTop
  | top :: _ => if top.dueTime ≤ now then .vsyncScheduled else .noAction

/-- The invocation of one drained callback's handler, as observed by the
client: which handler form was called, with which timestamp and data. -/
inductive InvokeEvent where
  | invoke64 (f : Nat) (timestamp : Nsecs) (data : Nat)
  | invoke32 (f : Nat) (timestamp : Nsecs) (data : Nat)
  deriving DecidableEq, Repr

/-- The per-callback invocation step of `Choreographer::dispatchVsync`
(lines 190-196): call `callback64` when non-null, else `callback` when
non-null, else nothing. -/
def invokeFrameCallback (timestamp : Nsecs) (cb : FrameCallback) :
    Option InvokeEvent :=
  match cb.callback64 with
  | some f => some (.invoke64 f timestamp cb.data)
  | none =>
    match cb.callback with
    | some f => some (.invoke32 f timestamp cb.data)
    | none => none

/-- The drain loop of `Choreographer::dispatchVsync` (lines 185-188):
`while (!mFrameCallbacks.empty() && mFrameCallbacks.top().dueTime < now)`
pop the top into the batch.  Returns (batch, remaining queue). -/
def drainLoop (now : Nsecs) : List FrameCallback →
    List FrameCallback × List FrameCallback
  | [] => ([], [])
  | top :: rest =>
    if top.dueTime < now then
      (top :: (drainLoop now rest).1, (drainLoop now rest).2)
    else
      ([], top :: rest)

/-- Embedding of `Choreographer::dispatchVsync` (lines 180-197).  `timestamp` is the
vsync event's timestamp; `now` is the fresh
`systemTime(SYSTEM_TIME_MONOTONIC)` reading taken under the lock.
Returns (remaining queue, drained batch, invocation events); note that
the drain criterion compares against `now` while the handlers receive
`timestamp`. -/
def dispatchVsync (timestamp now : Nsecs) (mFrameCallbacks : List FrameCallback) :
    List FrameCallback × List FrameCallback × List InvokeEvent :=
  let r := drainLoop now mFrameCallbacks
  (r.2, r.1, r.1.filterMap (invokeFrameCallback timestamp))

/-- A sequence of vsync deliveries, each a `(timestamp, now)` pair, run
through `dispatchVsync` in order.  Returns the final queue and the
concatenation of all drained batches (every invocation comes from a
drained batch, so a callback absent from the batches is never invoked). -/
def runVsyncs : List (Nsecs × Nsecs) → List FrameCallback →
    List FrameCallback × List FrameCallback
  | [], q => (q, [])
  | (ts, now) :: rest, q =>
    ((runVsyncs rest (dispatchVsync ts now q).1).1,
     (dispatchVsync ts now q).2.1 ++ (runVsyncs rest (dispatchVsync ts now q).1).2)

/-- The `toggleConfigEvents` argument: `eConfigChangedDispatch` to start
receiving configuration-change events, `eConfigChangedSuppress` to stop. -/
inductive ToggleEvent where
  | dispatch
  | suppress
  deriving DecidableEq, Repr

/-- The choreographer state guarded by `mLock`: the frame-callback
queue, the refresh-rate listener vector, and the cached vsync period
(`mVsyncPeriod = 0` initially). -/
structure ChoreographerState where
  mFrameCallbacks : List FrameCallback
  mRefreshRateCallbacks : List RefreshRateCallback
  mVsyncPeriod : Nsecs
  deriving DecidableEq, Repr

/-- Embedding of `Choreographer::registerRefreshRateCallback` (lines 146-152):
`emplace_back` the listener, then call
`toggleConfigEvents(eConfigChangedDispatch)` unconditionally. -/
def registerRefreshRateCallback (cb data : Nat) (s : ChoreographerState) :
    ChoreographerState × ToggleEvent :=
  (⟨s.mFrameCallbacks, s.mRefreshRateCallbacks ++ [⟨cb, data⟩], s.mVsyncPeriod⟩,
   .dispatch)

/-- The contents of `mRefreshRateCallbacks` after the
`std::remove_if(begin, end, pred)` call whose result the source discards
(lines 157-160).  `remove_if` shifts the kept elements (those failing
the predicate) to the front by assignment, preserving their order, and
never writes to the positions at and past the kept count, so for the
trivially copyable `RefreshRateCallback` those positions retain their
original contents; the vector's size is unchanged because no `erase` is
performed on the returned iterator. -/
def removeIfDiscarded (cb : Nat) (v : List RefreshRateCallback) :
    List RefreshRateCallback :=
  let kept := v.filter (fun c => !(cb == c.callback))
  kept ++ v.drop kept.length

/-- Embedding of `Choreographer::unregisterRefreshRateCallback` (lines 154-165): run
`std::remove_if` (result discarded, so the vector keeps its size), then
call `toggleConfigEvents(eConfigChangedSuppress)` if the vector is
empty.  Returns the new state and the toggle signal, if any. -/
def unregisterRefreshRateCallback (cb : Nat) (s : ChoreographerState) :
    ChoreographerState × Option ToggleEvent :=
  let v := removeIfDiscarded cb s.mRefreshRateCallbacks
  (⟨s.mFrameCallbacks, v, s.mVsyncPeriod⟩,
   if v.isEmpty then some .suppress else none)

/-- The loop body of `Choreographer::dispatchConfigChanged` (lines
212-223): for each registered listener, if `mVsyncPeriod != vsyncPeriod`
invoke the listener with `vsyncPeriod` and assign
`mVsyncPeriod = vsyncPeriod` — the assignment happens inside the loop,
per listener.  The accumulator is the running `mVsyncPeriod`; events are
`(handler, period, data)` triples. -/
def configChangedLoop (vsyncPeriod : Nsecs) :
    List RefreshRateCallback → Nsecs → Nsecs × List (Nat × Nsecs × Nat)
  | [], period => (period, [])
  | cb :: rest, period =>
    if period ≠ vsyncPeriod then
      let r := configChangedLoop vsyncPeriod rest vsyncPeriod
      (r.1, (cb.callback, vsyncPeriod, cb.data) :: r.2)
    else
      configChangedLoop vsyncPeriod rest period

/-- Embedding of `Choreographer::dispatchConfigChanged` (lines 210-224).  Returns the
new state and the listener invocations performed. -/
def dispatchConfigChanged (vsyncPeriod : Nsecs) (s : ChoreographerState) :
    ChoreographerState × List (Nat × Nsecs × Nat) :=
  let r := configChangedLoop vsyncPeriod s.mRefreshRateCallbacks s.mVsyncPeriod
  (⟨s.mFrameCallbacks, s.mRefreshRateCallbacks, r.1⟩, r.2)

/-- What a thread's environment provides to `Choreographer::getForThread`
(lines 101-117): whether `Looper::getForThread()` returns a prepared
looper for that thread, and whether `DisplayEventDispatcher::initialize`
(external to this file) returns `OK` for a dispatcher created there. -/
structure ThreadEnv where
  looperExists : Bool
  initOk : Bool
  deriving DecidableEq, Repr

/-- One heap-allocated `Choreographer` object as far as `getForThread`
observes it: `mThreadId` recorded by the constructor (line 122), and
whether its `initialize()` call returned `OK`. -/
structure ChoreographerInstance where
  mThreadId : Nat
  initOk : Bool
  deriving DecidableEq, Repr

/-- The `static thread_local Choreographer* gChoreographer` slots (line
101), one per thread id. -/
structure Registry where
  slot : Nat → Option ChoreographerInstance

/-- Embedding of `Choreographer::getForThread` (lines 102-117) as called from thread
`tid`: if the thread-local slot is set, return it; otherwise fail with
null when no looper is prepared; otherwise allocate, STORE INTO THE SLOT,
then check `initialize()` — returning null on failure while the slot
keeps the new instance.  Returns (returned pointer, updated slots). -/
def getForThread (env : Nat → ThreadEnv) (tid : Nat) (r : Registry) :
    Option ChoreographerInstance × Registry :=
  match r.slot tid with
  | some g => (some g, r)
  | none =>
    if (env tid).looperExists = false then
      (none, r)
    else
      let g : ChoreographerInstance := ⟨tid, (env tid).initOk⟩
      let r2 : Registry := ⟨fun t => if t = tid then some g else r.slot t⟩
      if (env tid).initOk = false then
        (none, r2)
      else
        (some g, r2)

/-- Slots only ever hold an instance constructed on their own thread
(the constructor records `mThreadId = std::this_thread::get_id()`, and a
`thread_local` slot is only written by its own thread). -/
def RegistryWF (r : Registry) : Prop :=
  ∀ t g, r.slot t = some g → g.mThreadId = t

/-! Helper lemmas about the linearised priority queue and the drain loop. -/

/-- Pushing is a permutation of consing: the queue holds exactly the old
entries plus the new one. -/
theorem pqInsert_perm (c : FrameCallback) (l : List FrameCallback) :
    List.Perm (pqInsert c l) (c :: l) := by
  induction l with
  | nil => simp [pqInsert]
  | cons x xs ih =>
    by_cases h : c.dueTime < x.dueTime
    · simp [pqInsert, h]
    · simp only [pqInsert, if_neg h]
      exact (ih.cons x).trans (List.Perm.swap c x xs)

/-- Membership in a pushed queue. -/
theorem mem_pqInsert {c b : FrameCallback} {l : List FrameCallback}
    (h : b ∈ pqInsert c l) : b = c ∨ b ∈ l := by
  have := (pqInsert_perm c l).mem_iff.mp h
  simpa using this

/-- Pushing preserves the sortedness invariant of the queue. -/
theorem pqInsert_sorted {l : List FrameCallback} (c : FrameCallback)
    (hs : QueueSorted l) : QueueSorted (pqInsert c l) := by
  induction l with
  | nil => simp [pqInsert, QueueSorted]
  | cons x xs ih =>
    rw [QueueSorted, List.sorted_cons] at hs
    obtain ⟨hx, hxs⟩ := hs
    by_cases h : c.dueTime < x.dueTime
    · rw [pqInsert, if_pos h, QueueSorted, List.sorted_cons]
      refine ⟨?_, ?_⟩
      · intro b hb
        rcases List.mem_cons.mp hb with rfl | hb
        · exact le_of_lt h
        · exact le_trans (le_of_lt h) (hx b hb)
      · rw [QueueSorted, List.sorted_cons] at *
        exact ⟨hx, hxs⟩
    · rw [pqInsert, if_neg h, QueueSorted, List.sorted_cons]
      refine ⟨?_, ih hxs⟩
      intro b hb
      rcases mem_pqInsert hb with rfl | hb
      · exact le_of_not_lt h
      · exact hx b hb

/-- Pushing a callback adds exactly one copy of it to the queue. -/
theorem count_pqInsert_self (c : FrameCallback) (l : List FrameCallback) :
    List.count c (pqInsert c l) = List.count c l + 1 := by
  rw [(pqInsert_perm c l).count_eq, List.count_cons_self]

/-- Drained batch followed by remaining queue is the original queue. -/
theorem drainLoop_append (now : Nsecs) (l : List FrameCallback) :
    (drainLoop now l).1 ++ (drainLoop now l).2 = l := by
  induction l with
  | nil => rfl
  | cons x xs ih =>
    by_cases h : x.dueTime < now
    · simp [drainLoop, h, ih]
    · simp [drainLoop, h]

/-- Every drained callback was due strictly before `now`. -/
theorem mem_drainLoop_batch {now : Nsecs} {l : List FrameCallback}
    {cb : FrameCallback} (h : cb ∈ (drainLoop now l).1) : cb.dueTime < now := by
  induction l with
  | nil => simp [drainLoop] at h
  | cons x xs ih =>
    by_cases hx : x.dueTime < now
    · simp only [drainLoop, if_pos hx, List.mem_cons] at h
      rcases h with rfl | h
      · exact hx
      · exact ih h
    · simp [drainLoop, hx] at h

/-- In a sorted queue, every callback left behind by the drain is not yet
due at `now`. -/
theorem mem_drainLoop_rest {now : Nsecs} {l : List FrameCallback}
    (hs : QueueSorted l) {cb : FrameCallback}
    (h : cb ∈ (drainLoop now l).2) : now ≤ cb.dueTime := by
  induction l with
  | nil => simp [drainLoop] at h
  | cons x xs ih =>
    rw [QueueSorted, List.sorted_cons] at hs
    by_cases hx : x.dueTime < now
    · simp only [drainLoop, if_pos hx] at h
      exact ih hs.2 h
    · simp only [drainLoop, if_neg hx] at h
      rcases List.mem_cons.mp h with rfl | h
      · exact le_of_not_lt hx
      · exact le_trans (le_of_not_lt hx) (hs.1 cb h)

/-- The drained batch of a sorted queue is sorted. -/
theorem drainLoop_batch_sorted {now : Nsecs} {l : List FrameCallback}
    (hs : QueueSorted l) : QueueSorted (drainLoop now l).1 := by
  have hsub : List.Sublist (drainLoop now l).1 l := by
    conv_rhs => rw [← drainLoop_append now l]
    exact List.sublist_append_left (drainLoop now l).1 (drainLoop now l).2
  exact List.Pairwise.sublist hsub hs

/-- The remaining queue after a drain of a sorted queue is sorted. -/
theorem drainLoop_rest_sorted {now : Nsecs} {l : List FrameCallback}
    (hs : QueueSorted l) : QueueSorted (drainLoop now l).2 := by
  have hsub : List.Sublist (drainLoop now l).2 l := by
    conv_rhs => rw [← drainLoop_append now l]
    exact List.sublist_append_right (drainLoop now l).1 (drainLoop now l).2
  exact List.Pairwise.sublist hsub hs

/-- A callback not yet due at `now` is never drained, and every copy of
it stays in the remaining queue. -/
theorem drainLoop_keeps_undue {now : Nsecs} {l : List FrameCallback}
    {cb : FrameCallback} (hcb : now ≤ cb.dueTime) :
    cb ∉ (drainLoop now l).1 ∧
    List.count cb (drainLoop now l).2 = List.count cb l := by
  have hnot : cb ∉ (drainLoop now l).1 := fun h =>
    absurd (mem_drainLoop_batch h) (not_lt.mpr hcb)
  refine ⟨hnot, ?_⟩
  conv_rhs => rw [← drainLoop_append now l]
  rw [List.count_append, List.count_eq_zero.mpr hnot, Nat.zero_add]

/-- When every queued callback is due, the drain empties the queue. -/
theorem drainLoop_all {now : Nsecs} {l : List FrameCallback}
    (h : ∀ cb ∈ l, cb.dueTime < now) : drainLoop now l = (l, []) := by
  induction l with
  | nil => rfl
  | cons x xs ih =>
    have hx : x.dueTime < now := h x (List.mem_cons_self x xs)
    have ihx := ih fun cb hcb => h cb (List.mem_cons_of_mem x hcb)
    simp [drainLoop, hx, ihx]

/-- Regardless of the branch taken for the vsync request, the queue
after `postFrameCallbackDelayed` is the old queue with the new callback
pushed. -/
theorem postFrameCallbackDelayed_fst (cb cb64 : Option Nat) (data : Nat)
    (delay now : Nsecs) (callerThread ownerThread : Nat)
    (q : List FrameCallback) :
    (postFrameCallbackDelayed cb cb64 data delay now callerThread ownerThread q).1 =
      pqInsert ⟨cb, cb64, data, now + delay⟩ q := by
  simp only [postFrameCallbackDelayed]
  split
  · split <;> rfl
  · rfl

/-- Across any sequence of vsync deliveries none of which happens after
a callback's due time, every copy of that callback stays in the queue
and it never appears in a drained batch (hence is never invoked). -/
theorem runVsyncs_keeps_undue (fc : FrameCallback) :
    ∀ (pulses : List (Nsecs × Nsecs)) (q : List FrameCallback),
    QueueSorted q → (∀ p ∈ pulses, p.2 ≤ fc.dueTime) →
    fc ∉ (runVsyncs pulses q).2 ∧
    List.count fc (runVsyncs pulses q).1 = List.count fc q := by
  intro pulses
  induction pulses with
  | nil =>
    intro q _ _
    simp [runVsyncs]
  | cons p rest ih =>
    intro q hs hp
    obtain ⟨ts, nw⟩ := p
    have hfc : nw ≤ fc.dueTime := hp (ts, nw) (List.mem_cons_self _ _)
    have hkeep := @drainLoop_keeps_undue nw q fc hfc
    have hs2 : QueueSorted (drainLoop nw q).2 := drainLoop_rest_sorted hs
    have ihr := ih (drainLoop nw q).2 hs2
      (fun p hp2 => hp p (List.mem_cons_of_mem _ hp2))
    constructor
    · simp only [runVsyncs, dispatchVsync, List.mem_append]
      rintro (h1 | h2)
      · exact hkeep.1 h1
      · exact ihr.1 h2
    · simp only [runVsyncs, dispatchVsync]
      rw [ihr.2, hkeep.2]

/-! Claim theorems. -/

/-- C1: evaluation of `dispatchConfigChanged` at the failing input.  With
two registered listeners (handlers 1 and 2) and stored period 0, a
config change to period 16666666 invokes ONLY the first listener — the
`mVsyncPeriod = vsyncPeriod` assignment inside the per-listener loop
makes the second listener's `mVsyncPeriod != vsyncPeriod` check fail —
although the stored period is updated and a repeated change to the same
period invokes nobody. -/
theorem dispatchConfigChanged_first_listener_only :
    (dispatchConfigChanged 16666666 ⟨[], [⟨1, 10⟩, ⟨2, 20⟩], 0⟩).2 =
      [(1, 16666666, 10)] ∧
    (dispatchConfigChanged 16666666 ⟨[], [⟨1, 10⟩, ⟨2, 20⟩], 0⟩).1.mVsyncPeriod =
      16666666 ∧
    (dispatchConfigChanged 16666666
      (dispatchConfigChanged 16666666 ⟨[], [⟨1, 10⟩, ⟨2, 20⟩], 0⟩).1).2 = [] := by
  decide

/-- C2: evaluation of `unregisterRefreshRateCallback` at the failing
input.  Unregistering the only listener (handler 1) leaves the vector
unchanged — the `std::remove_if` result is discarded, no `erase` follows
— so the listener is still registered and no suppress signal is sent;
with listeners 1 and 2, unregistering 1 leaves a two-element vector
ending in a duplicated listener 2. -/
theorem unregisterRefreshRateCallback_no_erase :
    (unregisterRefreshRateCallback 1 ⟨[], [⟨1, 10⟩], 0⟩).1.mRefreshRateCallbacks =
      [⟨1, 10⟩] ∧
    (unregisterRefreshRateCallback 1 ⟨[], [⟨1, 10⟩], 0⟩).2 = none ∧
    (unregisterRefreshRateCallback 1 ⟨[], [⟨1, 10⟩, ⟨2, 20⟩], 0⟩).1.mRefreshRateCallbacks =
      [⟨2, 20⟩, ⟨2, 20⟩] := by
  decide

/-- C4: `scheduleCallbacks` run against an empty frame-callback queue
evaluates `mFrameCallbacks.top()` on the empty `std::priority_queue`
(undefined behaviour in C++) instead of simply returning: the source has
no emptiness check before `top()`. -/
theorem scheduleCallbacks_empty_reads_top (now : Nsecs) :
    scheduleCallbacks now [] = ScheduleOutcome.emptyQueueTop := rfl

/-- C7 counterexample: with one listener already registered the set is
non-empty, yet registering a second listener issues the
`eConfigChangedDispatch` enable signal again — the source calls
`toggleConfigEvents` unconditionally on every registration, not only on
the empty-to-non-empty transition. -/
theorem registerRefreshRateCallback_reenables_cex :
    (⟨[], [⟨1, 10⟩], 0⟩ : ChoreographerState).mRefreshRateCallbacks ≠ [] ∧
    (registerRefreshRateCallback 2 20 ⟨[], [⟨1, 10⟩], 0⟩).2 =
      ToggleEvent.dispatch := by
  decide

/-- C7 (amended): `registerRefreshRateCallback` appends the listener to
the set and signals `eConfigChangedDispatch` on EVERY registration —
including the first one, which does enable delivery — leaving the frame
queue and stored period untouched; it does not suppress the redundant
enable signal for later registrations. -/
theorem registerRefreshRateCallback_always_enables (cb data : Nat)
    (s : ChoreographerState) :
    (registerRefreshRateCallback cb data s).2 = ToggleEvent.dispatch ∧
    (registerRefreshRateCallback cb data s).1.mRefreshRateCallbacks =
      s.mRefreshRateCallbacks ++ [⟨cb, data⟩] ∧
    (registerRefreshRateCallback cb data s).1.mFrameCallbacks =
      s.mFrameCallbacks ∧
    (registerRefreshRateCallback cb data s).1.mVsyncPeriod = s.mVsyncPeriod := by
  refine ⟨rfl, rfl, rfl, rfl⟩

/-- C3 counterexample: a callback due at 5 is NOT strictly before the
vsync timestamp 4, yet a dispatch with timestamp 4 whose fresh clock
reading (`now`) is 6 drains and invokes it: the drain criterion compares
due times against `now`, not against the vsync's `timestamp`. -/
theorem dispatchVsync_timestamp_cex :
    ¬ ((⟨none, some 7, 0, 5⟩ : FrameCallback).dueTime < 4) ∧
    (dispatchVsync 4 6 [⟨none, some 7, 0, 5⟩]).2.1 = [⟨none, some 7, 0, 5⟩] ∧
    (dispatchVsync 4 6 [⟨none, some 7, 0, 5⟩]).1 = [] ∧
    (dispatchVsync 4 6 [⟨none, some 7, 0, 5⟩]).2.2 = [InvokeEvent.invoke64 7 4 0] := by
  decide

/-- C3 (amended): on a vsync dispatch over a sorted queue, exactly the
callbacks whose due time is strictly before the fresh monotonic clock
reading `now` (not the vsync's `timestamp`) are drained, in
non-decreasing due-time order with the remaining queue unchanged behind
them; each drained callback with a non-null handler is invoked once with
the vsync `timestamp` as argument; and when every queued due time is
strictly before `now` — in particular for due times t1 ≤ ... ≤ tn with
tn < now — all n callbacks are drained in non-decreasing due-time order
and the queue empties. -/
theorem dispatchVsync_drains_due (timestamp now : Nsecs)
    (q : List FrameCallback) (hs : QueueSorted q) :
    (∀ cb ∈ (dispatchVsync timestamp now q).2.1, cb.dueTime < now) ∧
    (∀ cb ∈ (dispatchVsync timestamp now q).1, now ≤ cb.dueTime) ∧
    QueueSorted (dispatchVsync timestamp now q).2.1 ∧
    (dispatchVsync timestamp now q).2.1 ++ (dispatchVsync timestamp now q).1 = q ∧
    (dispatchVsync timestamp now q).2.2 =
      ((dispatchVsync timestamp now q).2.1).filterMap
        (invokeFrameCallback timestamp) ∧
    ((∀ cb ∈ q, cb.dueTime < now) →
      (dispatchVsync timestamp now q).2.1 = q ∧
      (dispatchVsync timestamp now q).1 = []) := by
  refine ⟨?_, ?_, ?_, ?_, rfl, ?_⟩
  · intro cb hcb
    exact mem_drainLoop_batch hcb
  · intro cb hcb
    exact mem_drainLoop_rest hs hcb
  · exact drainLoop_batch_sorted hs
  · exact drainLoop_append now q
  · intro hall
    have h := drainLoop_all hall
    simp [dispatchVsync, h]

/-- C3 witness: the amended drain property instantiated on the sorted
two-callback queue with due times 5 and 20, dispatched with timestamp 9
and clock reading 10. -/
theorem dispatchVsync_drains_due_witness :
    QueueSorted [⟨some 1, none, 2, 5⟩, ⟨none, some 3, 4, 20⟩] ∧
    ((∀ cb ∈ (dispatchVsync 9 10 [⟨some 1, none, 2, 5⟩, ⟨none, some 3, 4, 20⟩]).2.1,
        cb.dueTime < 10) ∧
     (∀ cb ∈ (dispatchVsync 9 10 [⟨some 1, none, 2, 5⟩, ⟨none, some 3, 4, 20⟩]).1,
        (10 : Nsecs) ≤ cb.dueTime) ∧
     QueueSorted (dispatchVsync 9 10 [⟨some 1, none, 2, 5⟩, ⟨none, some 3, 4, 20⟩]).2.1 ∧
     (dispatchVsync 9 10 [⟨some 1, none, 2, 5⟩, ⟨none, some 3, 4, 20⟩]).2.1 ++
       (dispatchVsync 9 10 [⟨some 1, none, 2, 5⟩, ⟨none, some 3, 4, 20⟩]).1 =
       [⟨some 1, none, 2, 5⟩, ⟨none, some 3, 4, 20⟩] ∧
     (dispatchVsync 9 10 [⟨some 1, none, 2, 5⟩, ⟨none, some 3, 4, 20⟩]).2.2 =
       ((dispatchVsync 9 10 [⟨some 1, none, 2, 5⟩, ⟨none, some 3, 4, 20⟩]).2.1).filterMap
         (invokeFrameCallback 9) ∧
     ((∀ cb ∈ [(⟨some 1, none, 2, 5⟩ : FrameCallback), ⟨none, some 3, 4, 20⟩],
         cb.dueTime < 10) →
       (dispatchVsync 9 10 [⟨some 1, none, 2, 5⟩, ⟨none, some 3, 4, 20⟩]).2.1 =
         [⟨some 1, none, 2, 5⟩, ⟨none, some 3, 4, 20⟩] ∧
       (dispatchVsync 9 10 [⟨some 1, none, 2, 5⟩, ⟨none, some 3, 4, 20⟩]).1 = [])) :=
  ⟨by decide,
   dispatchVsync_drains_due 9 10 [⟨some 1, none, 2, 5⟩, ⟨none, some 3, 4, 20⟩]
     (by decide)⟩

/-- C5: a callback posted at clock reading `now` with delay `delay > 0`
is queued with due time `now + delay`; across any sequence of vsync
deliveries whose clock readings are all at or before `now + delay`, it
never appears in a drained batch (so it is never invoked) and every copy
of it is still queued afterwards. -/
theorem postFrameCallbackDelayed_not_early
    (cb cb64 : Option Nat) (data : Nat) (delay now : Nsecs)
    (callerThread ownerThread : Nat) (q : List FrameCallback)
    (hs : QueueSorted q) (hd : 0 < delay)
    (pulses : List (Nsecs × Nsecs)) (hp : ∀ p ∈ pulses, p.2 ≤ now + delay) :
    (⟨cb, cb64, data, now + delay⟩ : FrameCallback) ∉
      (runVsyncs pulses
        (postFrameCallbackDelayed cb cb64 data delay now callerThread ownerThread q).1).2 ∧
    List.count (⟨cb, cb64, data, now + delay⟩ : FrameCallback)
      (runVsyncs pulses
        (postFrameCallbackDelayed cb cb64 data delay now callerThread ownerThread q).1).1 =
      List.count (⟨cb, cb64, data, now + delay⟩ : FrameCallback) q + 1 := by
  rw [postFrameCallbackDelayed_fst cb cb64 data delay now callerThread ownerThread q]
  have hs1 : QueueSorted (pqInsert ⟨cb, cb64, data, now + delay⟩ q) :=
    pqInsert_sorted _ hs
  have hk := runVsyncs_keeps_undue ⟨cb, cb64, data, now + delay⟩ pulses
    (pqInsert ⟨cb, cb64, data, now + delay⟩ q) hs1 hp
  exact ⟨hk.1, by rw [hk.2, count_pqInsert_self]⟩

/-- C5 witness: a callback posted at time 0 with delay 4 survives a
vsync delivered with clock reading 3 and is not drained by it. -/
theorem postFrameCallbackDelayed_not_early_witness :
    QueueSorted [] ∧ (0 : Nsecs) < 4 ∧
    (∀ p ∈ [((5 : Nsecs), (3 : Nsecs))], p.2 ≤ (0 : Nsecs) + 4) ∧
    ((⟨some 1, none, 2, (0 : Nsecs) + 4⟩ : FrameCallback) ∉
      (runVsyncs [(5, 3)]
        (postFrameCallbackDelayed (some 1) none 2 4 0 0 0 []).1).2 ∧
     List.count (⟨some 1, none, 2, (0 : Nsecs) + 4⟩ : FrameCallback)
       (runVsyncs [(5, 3)]
         (postFrameCallbackDelayed (some 1) none 2 4 0 0 0 []).1).1 =
       List.count (⟨some 1, none, 2, (0 : Nsecs) + 4⟩ : FrameCallback) [] + 1) :=
  ⟨by decide, by decide, by decide,
   postFrameCallbackDelayed_not_early (some 1) none 2 4 0 0 0 []
     (by decide) (by decide) [(5, 3)] (by decide)⟩

/-- C6: `postFrameCallbackDelayed` pushes the callback (due at
`now + delay`) into the queue, and before returning performs exactly
one effect: with `delay ≤ 0` (due time at or before `now`) a direct
`scheduleVsync()` when called on the owning thread and a
`MSG_SCHEDULE_VSYNC` message to the owning thread's looper otherwise;
with `delay > 0` a `MSG_SCHEDULE_CALLBACKS` message delayed by `delay`,
requesting no vsync. -/
theorem postFrameCallbackDelayed_action
    (cb cb64 : Option Nat) (data : Nat) (delay now : Nsecs)
    (callerThread ownerThread : Nat) (q : List FrameCallback) :
    List.count (⟨cb, cb64, data, now + delay⟩ : FrameCallback)
      (postFrameCallbackDelayed cb cb64 data delay now callerThread ownerThread q).1 =
      List.count (⟨cb, cb64, data, now + delay⟩ : FrameCallback) q + 1 ∧
    (delay ≤ 0 → callerThread = ownerThread →
      (postFrameCallbackDelayed cb cb64 data delay now callerThread ownerThread q).2 =
        PostAction.directVsync) ∧
    (delay ≤ 0 → callerThread ≠ ownerThread →
      (postFrameCallbackDelayed cb cb64 data delay now callerThread ownerThread q).2 =
        PostAction.sendMessage MSG_SCHEDULE_VSYNC) ∧
    (0 < delay →
      (postFrameCallbackDelayed cb cb64 data delay now callerThread ownerThread q).2 =
        PostAction.sendMessageDelayed delay MSG_SCHEDULE_CALLBACKS) := by
  refine ⟨?_, ?_, ?_, ?_⟩
  · rw [postFrameCallbackDelayed_fst, count_pqInsert_self]
  · intro hle heq
    have hdue : now + delay ≤ now := by linarith
    simp [postFrameCallbackDelayed, hdue, heq]
  · intro hle hne
    have hdue : now + delay ≤ now := by linarith
    simp [postFrameCallbackDelayed, hdue, hne]
  · intro hlt
    have hdue : ¬ (now + delay ≤ now) := by
      intro h
      linarith
    simp [postFrameCallbackDelayed, hdue]

/-- C6 witness: the posting contract instantiated for a zero-delay post
from the owning thread (thread 3) at time 7 on an empty queue. -/
theorem postFrameCallbackDelayed_action_witness :
    List.count (⟨some 1, none, 2, (7 : Nsecs) + 0⟩ : FrameCallback)
      (postFrameCallbackDelayed (some 1) none 2 0 7 3 3 []).1 =
      List.count (⟨some 1, none, 2, (7 : Nsecs) + 0⟩ : FrameCallback) [] + 1 ∧
    ((0 : Nsecs) ≤ 0 → 3 = 3 →
      (postFrameCallbackDelayed (some 1) none 2 0 7 3 3 []).2 =
        PostAction.directVsync) ∧
    ((0 : Nsecs) ≤ 0 → (3 : Nat) ≠ 3 →
      (postFrameCallbackDelayed (some 1) none 2 0 7 3 3 []).2 =
        PostAction.sendMessage MSG_SCHEDULE_VSYNC) ∧
    ((0 : Nsecs) < 0 →
      (postFrameCallbackDelayed (some 1) none 2 0 7 3 3 []).2 =
        PostAction.sendMessageDelayed 0 MSG_SCHEDULE_CALLBACKS) :=
  postFrameCallbackDelayed_action (some 1) none 2 0 7 3 3 []

/-- C9: the dispatch of a drained callback invokes exactly one handler
form — the 64-bit one when non-null, else the 32-bit one when non-null,
else nothing — and a callback posted with both handler forms null is
accepted into the queue, drained by a vsync whose clock reading passes
its due time, and produces no invocation and no error. -/
theorem dispatchVsync_handler_forms (cb : FrameCallback) (timestamp : Nsecs)
    (data : Nat) (due nowd ts : Nsecs) (h : due < nowd) :
    ((∃ f, cb.callback64 = some f ∧
        invokeFrameCallback timestamp cb =
          some (InvokeEvent.invoke64 f timestamp cb.data)) ∨
     (cb.callback64 = none ∧ ∃ f, cb.callback = some f ∧
        invokeFrameCallback timestamp cb =
          some (InvokeEvent.invoke32 f timestamp cb.data)) ∨
     (cb.callback64 = none ∧ cb.callback = none ∧
        invokeFrameCallback timestamp cb = none)) ∧
    (∀ (delay now : Nsecs) (caller owner : Nat) (q : List FrameCallback),
      List.count (⟨none, none, data, now + delay⟩ : FrameCallback)
        (postFrameCallbackDelayed none none data delay now caller owner q).1 =
        List.count (⟨none, none, data, now + delay⟩ : FrameCallback) q + 1) ∧
    dispatchVsync ts nowd [⟨none, none, data, due⟩] =
      ([], [⟨none, none, data, due⟩], []) := by
  refine ⟨?_, ?_, ?_⟩
  · rcases h64 : cb.callback64 with _ | f
    · rcases h32 : cb.callback with _ | f
      · exact Or.inr (Or.inr ⟨rfl, rfl, by simp [invokeFrameCallback, h64, h32]⟩)
      · exact Or.inr (Or.inl ⟨rfl, f, rfl, by simp [invokeFrameCallback, h64, h32]⟩)
    · exact Or.inl ⟨f, rfl, by simp [invokeFrameCallback, h64]⟩
  · intro delay now caller owner q
    rw [postFrameCallbackDelayed_fst, count_pqInsert_self]
  · simp [dispatchVsync, drainLoop, h, invokeFrameCallback]

/-- C9 witness: the handler-form dichotomy instantiated on a callback
carrying both forms, and a null-null callback due at 6 drained by a
vsync with clock reading 7. -/
theorem dispatchVsync_handler_forms_witness :
    (6 : Nsecs) < 7 ∧
    (((∃ f, (⟨some 1, some 2, 3, 0⟩ : FrameCallback).callback64 = some f ∧
        invokeFrameCallback 4 ⟨some 1, some 2, 3, 0⟩ =
          some (InvokeEvent.invoke64 f 4 (⟨some 1, some 2, 3, 0⟩ : FrameCallback).data)) ∨
      ((⟨some 1, some 2, 3, 0⟩ : FrameCallback).callback64 = none ∧
        ∃ f, (⟨some 1, some 2, 3, 0⟩ : FrameCallback).callback = some f ∧
          invokeFrameCallback 4 ⟨some 1, some 2, 3, 0⟩ =
            some (InvokeEvent.invoke32 f 4 (⟨some 1, some 2, 3, 0⟩ : FrameCallback).data)) ∨
      ((⟨some 1, some 2, 3, 0⟩ : FrameCallback).callback64 = none ∧
        (⟨some 1, some 2, 3, 0⟩ : FrameCallback).callback = none ∧
        invokeFrameCallback 4 ⟨some 1, some 2, 3, 0⟩ = none)) ∧
     (∀ (delay now : Nsecs) (caller owner : Nat) (q : List FrameCallback),
       List.count (⟨none, none, 5, now + delay⟩ : FrameCallback)
         (postFrameCallbackDelayed none none 5 delay now caller owner q).1 =
         List.count (⟨none, none, 5, now + delay⟩ : FrameCallback) q + 1) ∧
     dispatchVsync 8 7 [⟨none, none, 5, 6⟩] = ([], [⟨none, none, 5, 6⟩], [])) :=
  ⟨by decide, dispatchVsync_handler_forms ⟨some 1, some 2, 3, 0⟩ 4 5 6 7 8 (by decide)⟩

/-- A call that finds the thread-local slot already set returns the
cached instance and changes nothing. -/
theorem getForThread_hit (env : Nat → ThreadEnv) (tid : Nat) (r : Registry)
    {g : ChoreographerInstance} (h : r.slot tid = some g) :
    getForThread env tid r = (some g, r) := by
  simp [getForThread, h]

/-- If `getForThread` returns an instance, the thread-local slot of the
calling thread now holds exactly that instance. -/
theorem getForThread_cached (env : Nat → ThreadEnv) (tid : Nat) (r : Registry)
    {g : ChoreographerInstance} (h : (getForThread env tid r).1 = some g) :
    ((getForThread env tid r).2).slot tid = some g := by
  rcases hslot : r.slot tid with _ | g0
  · simp only [getForThread, hslot] at h ⊢
    by_cases hl : (env tid).looperExists = false
    · simp [hl] at h
    · simp only [if_neg hl] at h ⊢
      by_cases hi : (env tid).initOk = false
      · simp [hi] at h
      · simp only [if_neg hi, Option.some.injEq] at h ⊢
        simp [← h]
  · rw [getForThread_hit env tid r hslot] at h ⊢
    simp only [Option.some.injEq] at h
    rw [hslot, h]

/-- An instance returned by `getForThread` was constructed on the
calling thread: its `mThreadId` is that thread. -/
theorem getForThread_threadId (env : Nat → ThreadEnv) (tid : Nat) (r : Registry)
    (hwf : RegistryWF r) {g : ChoreographerInstance}
    (h : (getForThread env tid r).1 = some g) : g.mThreadId = tid := by
  rcases hslot : r.slot tid with _ | g0
  · simp only [getForThread, hslot] at h
    by_cases hl : (env tid).looperExists = false
    · simp [hl] at h
    · simp only [if_neg hl] at h
      by_cases hi : (env tid).initOk = false
      · simp [hi] at h
      · simp only [if_neg hi, Option.some.injEq] at h
        rw [← h]
  · rw [getForThread_hit env tid r hslot] at h
    simp only [Option.some.injEq] at h
    rw [← h]
    exact hwf tid g0 hslot

/-- Writing a freshly constructed instance into its own thread's slot
preserves the registry invariant. -/
theorem registry_update_wf (r : Registry) (tid : Nat) (b : Bool)
    (hwf : RegistryWF r) :
    RegistryWF ⟨fun t => if t = tid then some ⟨tid, b⟩ else r.slot t⟩ := by
  intro t g hg
  by_cases ht : t = tid
  · subst ht
    have h2 : (⟨t, b⟩ : ChoreographerInstance) = g := by simpa using hg
    rw [← h2]
  · simp only [if_neg ht] at hg
    exact hwf t g hg

/-- `getForThread` preserves the registry invariant. -/
theorem getForThread_wf (env : Nat → ThreadEnv) (tid : Nat) (r : Registry)
    (hwf : RegistryWF r) : RegistryWF (getForThread env tid r).2 := by
  rcases hslot : r.slot tid with _ | g0
  · simp only [getForThread, hslot]
    by_cases hl : (env tid).looperExists = false
    · simp only [if_pos hl]
      exact hwf
    · simp only [if_neg hl]
      split
      · exact registry_update_wf r tid _ hwf
      · exact registry_update_wf r tid _ hwf
  · rw [getForThread_hit env tid r hslot]
    exact hwf

/-- A process environment in which every thread has a prepared looper
and dispatcher initialisation succeeds. -/
def envAllOk : Nat → ThreadEnv := fun _ => ⟨true, true⟩

/-- A process environment in which every thread has a prepared looper
but dispatcher initialisation fails (`initialize() != OK`). -/
def envInitFails : Nat → ThreadEnv := fun _ => ⟨true, false⟩

/-- The registry before any `getForThread` call: every thread-local
slot is null. -/
def emptyRegistry : Registry := ⟨fun _ => none⟩

/-- C8 counterexample: on a thread whose looper IS prepared but whose
dispatcher initialisation fails, the first `getForThread` call returns
no instance — so "returns null only when the calling thread has no
prepared event loop, and otherwise returns a scheduler instance" is
false as stated. -/
theorem getForThread_looper_not_enough_cex :
    (envInitFails 0).looperExists = true ∧
    (getForThread envInitFails 0 emptyRegistry).1 = none :=
  ⟨rfl, rfl⟩

/-- C8 (amended): over any well-formed registry, `getForThread` returns
null when the calling thread has no prepared event loop and no cached
instance; when the slot is empty, a looper exists and initialisation
succeeds it returns a fresh instance for that thread; whenever a call
returns an instance, an immediately following call from the same thread
returns the identical instance; and instances returned to two distinct
threads are distinct. -/
theorem getForThread_spec (env : Nat → ThreadEnv) (r : Registry) (t1 t2 : Nat)
    (hwf : RegistryWF r) :
    (r.slot t1 = none → (env t1).looperExists = false →
      (getForThread env t1 r).1 = none) ∧
    (r.slot t1 = none → (env t1).looperExists = true → (env t1).initOk = true →
      (getForThread env t1 r).1 = some ⟨t1, true⟩) ∧
    (∀ g, (getForThread env t1 r).1 = some g →
      (getForThread env t1 (getForThread env t1 r).2).1 = some g) ∧
    (∀ g1 g2, t1 ≠ t2 → (getForThread env t1 r).1 = some g1 →
      (getForThread env t2 (getForThread env t1 r).2).1 = some g2 →
      g1 ≠ g2) := by
  refine ⟨?_, ?_, ?_, ?_⟩
  · intro h0 hl
    simp [getForThread, h0, hl]
  · intro h0 hl hi
    simp [getForThread, h0, hl, hi]
  · intro g hg
    rw [getForThread_hit env t1 _ (getForThread_cached env t1 r hg)]
  · intro g1 g2 hne hg1 hg2
    have ht1 : g1.mThreadId = t1 := getForThread_threadId env t1 r hwf hg1
    have ht2 : g2.mThreadId = t2 :=
      getForThread_threadId env t2 _ (getForThread_wf env t1 r hwf) hg2
    intro heq
    exact hne (by rw [← ht1, ← ht2, heq])

/-- C8 witness: the registry contract instantiated on the all-OK
environment, the empty registry, and threads 0 and 1. -/
theorem getForThread_spec_witness :
    RegistryWF emptyRegistry ∧
    ((emptyRegistry.slot 0 = none → (envAllOk 0).looperExists = false →
      (getForThread envAllOk 0 emptyRegistry).1 = none) ∧
     (emptyRegistry.slot 0 = none → (envAllOk 0).looperExists = true →
      (envAllOk 0).initOk = true →
      (getForThread envAllOk 0 emptyRegistry).1 = some ⟨0, true⟩) ∧
     (∀ g, (getForThread envAllOk 0 emptyRegistry).1 = some g →
      (getForThread envAllOk 0 (getForThread envAllOk 0 emptyRegistry).2).1 =
        some g) ∧
     (∀ g1 g2, (0 : Nat) ≠ 1 →
      (getForThread envAllOk 0 emptyRegistry).1 = some g1 →
      (getForThread envAllOk 1 (getForThread envAllOk 0 emptyRegistry).2).1 =
        some g2 →
      g1 ≠ g2)) :=
  ⟨fun _ g h => Option.noConfusion h,
   getForThread_spec envAllOk emptyRegistry 0 1 (fun _ g h => Option.noConfusion h)⟩

/-- C10: when the thread-local slot is empty, a looper is prepared but
`initialize()` fails, `getForThread` returns null — yet it has already
stored the new instance in the thread-local slot, so the slot holds the
never-initialised instance and every subsequent call from that thread
returns that instance instead of retrying creation or returning null. -/
theorem getForThread_initFail_sticky (env : Nat → ThreadEnv) (r : Registry)
    (tid : Nat) (h0 : r.slot tid = none) (hl : (env tid).looperExists = true)
    (hi : (env tid).initOk = false) :
    (getForThread env tid r).1 = none ∧
    ((getForThread env tid r).2).slot tid = some ⟨tid, false⟩ ∧
    (getForThread env tid ((getForThread env tid r).2)).1 = some ⟨tid, false⟩ := by
  have h2 : ((getForThread env tid r).2).slot tid = some ⟨tid, false⟩ := by
    simp [getForThread, h0, hl, hi]
  refine ⟨by simp [getForThread, h0, hl, hi], h2, ?_⟩
  rw [getForThread_hit env tid _ h2]

/-- C10 witness: the sticky failed-creation behaviour at thread 0 of the
empty registry under the initialisation-fails environment. -/
theorem getForThread_initFail_sticky_witness :
    emptyRegistry.slot 0 = none ∧
    (envInitFails 0).looperExists = true ∧
    (envInitFails 0).initOk = false ∧
    ((getForThread envInitFails 0 emptyRegistry).1 = none ∧
     ((getForThread envInitFails 0 emptyRegistry).2).slot 0 = some ⟨0, false⟩ ∧
     (getForThread envInitFails 0
       ((getForThread envInitFails 0 emptyRegistry).2)).1 = some ⟨0, false⟩) :=
  ⟨rfl, rfl, rfl, getForThread_initFail_sticky envInitFails emptyRegistry 0 rfl rfl rfl⟩
